import Mathlib

/-!
Verification of the vector similarity retrieval core
(`backend/app/utils/vector_utils.py`).

Vectors are embedded as `List ℝ`; Python floats are modelled as real
numbers, `math.sqrt` as `Real.sqrt`.  Fallible functions (the source
raises `ValueError`) return `Except VecError α`, with one `VecError`
constructor per distinct error message raised by the source.
-/

namespace VectorUtils

/-- One constructor per distinct `ValueError` message in the source module. -/
inductive VecError where
  /-- "Vectors cannot be empty" (pairwise primitives). -/
  | emptyVectors
  /-- "Vectors must have same dimension, got ... and ..." (pairwise primitives). -/
  | dimMismatch
  /-- "Vector cannot be empty" (`normalize_vector`, `vector_magnitude`). -/
  | emptyVector
  /-- "Cannot normalize zero vector". -/
  | zeroVector
  /-- "Query vector cannot be empty". -/
  | emptyQuery
  /-- "Candidate vectors cannot be empty". -/
  | emptyCandidates
  /-- "k must be at least 1". -/
  | kTooSmall
  /-- "Unknown similarity function: ...". -/
  | unknownMetric
  /-- "No valid candidates found". -/
  | noValidCandidates
  /-- "Vectors list cannot be empty" (`mean_vector`). -/
  | emptyVectorsList
  /-- "All vectors must have same dimension. ..." (`mean_vector`). -/
  | meanDimMismatch
deriving DecidableEq

/-- `sum(a * b for a, b in zip(vec1, vec2))`. -/
def pairMulSum (vec1 vec2 : List ℝ) : ℝ :=
  ((vec1.zip vec2).map fun p => p.1 * p.2).sum

/-- `sum(x * x for x in vec)`. -/
def sqSum (vec : List ℝ) : ℝ :=
  (vec.map fun x => x * x).sum

/-- `sum((a - b) ** 2 for a, b in zip(vec1, vec2))`. -/
def sqDiffSum (vec1 vec2 : List ℝ) : ℝ :=
  ((vec1.zip vec2).map fun p => (p.1 - p.2) ^ 2).sum

/-- `cosine_similarity(vec1, vec2)` from the source module. -/
noncomputable def cosine_similarity (vec1 vec2 : List ℝ) : Except VecError ℝ :=
  if vec1 = [] ∨ vec2 = [] then Except.error VecError.emptyVectors
  else if vec1.length ≠ vec2.length then Except.error VecError.dimMismatch
  else if Real.sqrt (sqSum vec1) = 0 ∨ Real.sqrt (sqSum vec2) = 0 then Except.ok 0
  else Except.ok (pairMulSum vec1 vec2 / (Real.sqrt (sqSum vec1) * Real.sqrt (sqSum vec2)))

/-- `euclidean_distance(vec1, vec2)` from the source module. -/
noncomputable def euclidean_distance (vec1 vec2 : List ℝ) : Except VecError ℝ :=
  if vec1 = [] ∨ vec2 = [] then Except.error VecError.emptyVectors
  else if vec1.length ≠ vec2.length then Except.error VecError.dimMismatch
  else Except.ok (Real.sqrt (sqDiffSum vec1 vec2))

/-- `dot_product(vec1, vec2)` from the source module. -/
noncomputable def dot_product (vec1 vec2 : List ℝ) : Except VecError ℝ :=
  if vec1 = [] ∨ vec2 = [] then Except.error VecError.emptyVectors
  else if vec1.length ≠ vec2.length then Except.error VecError.dimMismatch
  else Except.ok (pairMulSum vec1 vec2)

/-- `normalize_vector(vec)` from the source module. -/
noncomputable def normalize_vector (vec : List ℝ) : Except VecError (List ℝ) :=
  if vec = [] then Except.error VecError.emptyVector
  else if Real.sqrt (sqSum vec) = 0 then Except.error VecError.zeroVector
  else Except.ok (vec.map fun x => x / Real.sqrt (sqSum vec))

/-- `vector_magnitude(vec)` from the source module. -/
noncomputable def vector_magnitude (vec : List ℝ) : Except VecError ℝ :=
  if vec = [] then Except.error VecError.emptyVector
  else Except.ok (Real.sqrt (sqSum vec))

/-- The scoring loop of `find_top_k_similar`: for each candidate compute
`score_fn(query_vec, cand_vec)`, keeping `(cand_id, score)` on success and
silently skipping candidates on which the scoring function raises. -/
noncomputable def scoreCandidates (score_fn : List ℝ → List ℝ → Except VecError ℝ)
    (query_vec : List ℝ) (candidate_vecs : List (String × List ℝ)) :
    List (String × ℝ) :=
  candidate_vecs.filterMap fun c =>
    match score_fn query_vec c.2 with
    | Except.ok s => some (c.1, s)
    | Except.error _ => none

/-- `scores.sort(key=lambda x: x[1], reverse=reverse)`: a stable sort on the
score component, descending when `reverse` is true, ascending otherwise. -/
noncomputable def sortScores (rev : Bool) (scores : List (String × ℝ)) :
    List (String × ℝ) :=
  if rev then scores.insertionSort fun x y => y.2 ≤ x.2
  else scores.insertionSort fun x y => x.2 ≤ y.2

/-- The tail of `find_top_k_similar` after scoring: raise "No valid candidates
found" when no candidate was scored, otherwise sort and slice `scores[:k]`. -/
noncomputable def topFrom (scores : List (String × ℝ)) (rev : Bool) (k : ℤ) :
    Except VecError (List (String × ℝ)) :=
  if scores = [] then Except.error VecError.noValidCandidates
  else Except.ok ((sortScores rev scores).take k.toNat)

/-- `find_top_k_similar(query_vec, candidate_vecs, k, similarity_fn)` from the
source module: validation, metric dispatch, scoring loop, sort and slice. -/
noncomputable def find_top_k_similar (query_vec : List ℝ)
    (candidate_vecs : List (String × List ℝ)) (k : ℤ) (similarity_fn : String) :
    Except VecError (List (String × ℝ)) :=
  if query_vec = [] then Except.error VecError.emptyQuery
  else if candidate_vecs = [] then Except.error VecError.emptyCandidates
  else if k < 1 then Except.error VecError.kTooSmall
  else if similarity_fn = "cosine" then
    topFrom (scoreCandidates cosine_similarity query_vec candidate_vecs) true k
  else if similarity_fn = "dot" then
    topFrom (scoreCandidates dot_product query_vec candidate_vecs) true k
  else if similarity_fn = "euclidean" then
    topFrom (scoreCandidates euclidean_distance query_vec candidate_vecs) false k
  else Except.error VecError.unknownMetric

/-- `mean_vector(vectors)` from the source module. -/
noncomputable def mean_vector (vectors : List (List ℝ)) : Except VecError (List ℝ) :=
  match vectors with
  | [] => Except.error VecError.emptyVectorsList
  | v0 :: rest =>
    if ∀ v ∈ v0 :: rest, v.length = v0.length then
      Except.ok ((List.range v0.length).map fun i =>
        (((v0 :: rest).map fun v => v.getD i 0).sum) / (((v0 :: rest).length : ℝ)))
    else Except.error VecError.meanDimMismatch

/-- The metric names accepted by `find_top_k_similar`. -/
def knownMetric (s : String) : Prop :=
  s = "cosine" ∨ s = "dot" ∨ s = "euclidean"

/-- Number of candidates whose vector has the same dimension as the query. -/
def compatCount (query_vec : List ℝ) (candidate_vecs : List (String × List ℝ)) : ℕ :=
  (candidate_vecs.filter fun c => c.2.length == query_vec.length).length

/-- A scoring function succeeds exactly on non-empty, equal-length inputs. -/
def scoreFnSpec (f : List ℝ → List ℝ → Except VecError ℝ) : Prop :=
  ∀ v w, (∃ s, f v w = Except.ok s) ↔ (v ≠ [] ∧ w ≠ [] ∧ v.length = w.length)

lemma cosine_scoreFnSpec : scoreFnSpec cosine_similarity := by
  intro v w
  constructor
  · rintro ⟨s, hs⟩
    simp only [cosine_similarity] at hs
    split_ifs at hs with h1 h2 h3 <;>
      first
        | exact Except.noConfusion hs
        | exact ⟨(not_or.mp h1).1, (not_or.mp h1).2, h2⟩
        | exact ⟨(not_or.mp h1).1, (not_or.mp h1).2, not_not.mp h2⟩
  · rintro ⟨hv, hw, hlen⟩
    simp only [cosine_similarity]
    rw [if_neg (by simp [hv, hw]), if_neg (by simp [hlen])]
    split_ifs <;> exact ⟨_, rfl⟩

lemma dot_scoreFnSpec : scoreFnSpec dot_product := by
  intro v w
  constructor
  · rintro ⟨s, hs⟩
    simp only [dot_product] at hs
    split_ifs at hs with h1 h2 <;>
      first
        | exact Except.noConfusion hs
        | exact ⟨(not_or.mp h1).1, (not_or.mp h1).2, h2⟩
        | exact ⟨(not_or.mp h1).1, (not_or.mp h1).2, not_not.mp h2⟩
  · rintro ⟨hv, hw, hlen⟩
    simp only [dot_product]
    rw [if_neg (by simp [hv, hw]), if_neg (by simp [hlen])]
    exact ⟨_, rfl⟩

lemma euclidean_scoreFnSpec : scoreFnSpec euclidean_distance := by
  intro v w
  constructor
  · rintro ⟨s, hs⟩
    simp only [euclidean_distance] at hs
    split_ifs at hs with h1 h2 <;>
      first
        | exact Except.noConfusion hs
        | exact ⟨(not_or.mp h1).1, (not_or.mp h1).2, h2⟩
        | exact ⟨(not_or.mp h1).1, (not_or.mp h1).2, not_not.mp h2⟩
  · rintro ⟨hv, hw, hlen⟩
    simp only [euclidean_distance]
    rw [if_neg (by simp [hv, hw]), if_neg (by simp [hlen])]
    exact ⟨_, rfl⟩

lemma pairMulSum_comm (a b : List ℝ) : pairMulSum a b = pairMulSum b a := by
  induction a generalizing b with
  | nil => cases b <;> simp [pairMulSum]
  | cons x xs ih =>
    cases b with
    | nil => simp [pairMulSum]
    | cons y ys =>
      simp only [pairMulSum, List.zip_cons_cons, List.map_cons, List.sum_cons] at *
      rw [mul_comm, ih]

lemma sqDiffSum_comm (a b : List ℝ) : sqDiffSum a b = sqDiffSum b a := by
  induction a generalizing b with
  | nil => cases b <;> simp [sqDiffSum]
  | cons x xs ih =>
    cases b with
    | nil => simp [sqDiffSum]
    | cons y ys =>
      simp only [sqDiffSum, List.zip_cons_cons, List.map_cons, List.sum_cons] at *
      rw [ih]
      ring_nf

lemma sqDiffSum_nonneg (a b : List ℝ) : 0 ≤ sqDiffSum a b := by
  refine List.sum_nonneg ?_
  intro x hx
  obtain ⟨p, -, rfl⟩ := List.mem_map.mp hx
  exact sq_nonneg _

lemma sqDiffSum_eq_zero_iff : ∀ {a b : List ℝ}, a.length = b.length →
    (sqDiffSum a b = 0 ↔ a = b) := by
  intro a
  induction a with
  | nil =>
    intro b hlen
    cases b with
    | nil => simp [sqDiffSum]
    | cons y ys => simp at hlen
  | cons x xs ih =>
    intro b hlen
    cases b with
    | nil => simp at hlen
    | cons y ys =>
      have hxy : sqDiffSum (x :: xs) (y :: ys) = (x - y) ^ 2 + sqDiffSum xs ys := by
        simp [sqDiffSum]
      rw [hxy, add_eq_zero_iff_of_nonneg (sq_nonneg _) (sqDiffSum_nonneg _ _),
        pow_eq_zero_iff (by norm_num : 2 ≠ 0), sub_eq_zero, ih (by simpa using hlen)]
      simp

lemma score_ok_length {f : List ℝ → List ℝ → Except VecError ℝ} (hf : scoreFnSpec f)
    {q w : List ℝ} {s : ℝ} (h : f q w = Except.ok s) :
    q ≠ [] ∧ w ≠ [] ∧ q.length = w.length :=
  (hf q w).mp ⟨s, h⟩

lemma scoreCandidates_length {f : List ℝ → List ℝ → Except VecError ℝ}
    (hf : scoreFnSpec f) (q : List ℝ) (hq : q ≠ [])
    (cands : List (String × List ℝ)) :
    (scoreCandidates f q cands).length = compatCount q cands := by
  induction cands with
  | nil => simp [scoreCandidates, compatCount]
  | cons c cs ih =>
    by_cases hc : c.2.length = q.length
    · have hcne : c.2 ≠ [] := by
        intro hnil
        rw [hnil] at hc
        exact hq (List.length_eq_zero.mp hc.symm)
      obtain ⟨s, hs⟩ := (hf q c.2).mpr ⟨hq, hcne, hc.symm⟩
      simp only [scoreCandidates, compatCount, List.filterMap_cons, List.filter_cons, hs] at *
      simp only [beq_iff_eq, hc, if_pos]
      simp [ih]
    · have hserr : ∀ s, f q c.2 ≠ Except.ok s := by
        intro s hs
        exact hc ((score_ok_length hf hs).2.2).symm
      cases hfc : f q c.2 with
      | ok s => exact absurd hfc (hserr s)
      | error e =>
        simp only [scoreCandidates, compatCount, List.filterMap_cons, List.filter_cons, hfc] at *
        simp only [beq_iff_eq, hc, if_neg, if_false]
        simp [ih]

lemma mem_scoreCandidates {f : List ℝ → List ℝ → Except VecError ℝ}
    {q : List ℝ} {cands : List (String × List ℝ)} {p : String × ℝ}
    (hp : p ∈ scoreCandidates f q cands) :
    ∃ c ∈ cands, c.1 = p.1 ∧ f q c.2 = Except.ok p.2 := by
  obtain ⟨c, hc, heq⟩ := List.mem_filterMap.mp hp
  cases hfc : f q c.2 with
  | ok s =>
    rw [hfc] at heq
    simp only [Option.some.injEq] at heq
    exact ⟨c, hc, by rw [← heq], by rw [hfc, ← heq]⟩
  | error e =>
    rw [hfc] at heq
    exact Option.noConfusion heq

lemma compatCount_pos {q : List ℝ} {cands : List (String × List ℝ)}
    (h : ∃ c ∈ cands, c.2.length = q.length) : 0 < compatCount q cands := by
  obtain ⟨c, hc, hlen⟩ := h
  have hmem : c ∈ cands.filter fun c => c.2.length == q.length :=
    List.mem_filter.mpr ⟨hc, by simp [hlen]⟩
  exact List.length_pos.mpr (List.ne_nil_of_mem hmem)

lemma sortScores_perm (b : Bool) (l : List (String × ℝ)) :
    List.Perm (sortScores b l) l := by
  cases b <;> exact List.perm_insertionSort _ _

lemma sortScores_length (b : Bool) (l : List (String × ℝ)) :
    (sortScores b l).length = l.length :=
  (sortScores_perm b l).length_eq

lemma mem_sortScores {b : Bool} {l : List (String × ℝ)} {p : String × ℝ} :
    p ∈ sortScores b l ↔ p ∈ l :=
  (sortScores_perm b l).mem_iff

lemma sortScores_sorted_desc (l : List (String × ℝ)) :
    (sortScores true l).Sorted fun x y => y.2 ≤ x.2 := by
  letI : IsTotal (String × ℝ) (fun x y => y.2 ≤ x.2) := ⟨fun a b => le_total b.2 a.2⟩
  letI : IsTrans (String × ℝ) (fun x y => y.2 ≤ x.2) :=
    ⟨fun a b c h1 h2 => le_trans h2 h1⟩
  simpa [sortScores] using List.sorted_insertionSort (fun x y => y.2 ≤ x.2) l

lemma sortScores_sorted_asc (l : List (String × ℝ)) :
    (sortScores false l).Sorted fun x y => x.2 ≤ y.2 := by
  letI : IsTotal (String × ℝ) (fun x y => x.2 ≤ y.2) := ⟨fun a b => le_total a.2 b.2⟩
  letI : IsTrans (String × ℝ) (fun x y => x.2 ≤ y.2) :=
    ⟨fun a b c h1 h2 => le_trans h1 h2⟩
  simpa [sortScores] using List.sorted_insertionSort (fun x y => x.2 ≤ y.2) l

lemma topFrom_ne_nil {scores : List (String × ℝ)} (b : Bool) (k : ℤ)
    (h : scores ≠ []) :
    topFrom scores b k = Except.ok ((sortScores b scores).take k.toNat) := by
  simp [topFrom, h]

lemma topFrom_nil (b : Bool) (k : ℤ) :
    topFrom [] b k = Except.error VecError.noValidCandidates := by
  simp [topFrom]

lemma find_top_k_cosine (q : List ℝ) (cands : List (String × List ℝ)) (k : ℤ)
    (hq : q ≠ []) (hc : cands ≠ []) (hk : ¬ k < 1) :
    find_top_k_similar q cands k "cosine" =
      topFrom (scoreCandidates cosine_similarity q cands) true k := by
  simp only [find_top_k_similar]
  rw [if_neg hq, if_neg hc, if_neg hk, if_pos trivial]

lemma find_top_k_dot (q : List ℝ) (cands : List (String × List ℝ)) (k : ℤ)
    (hq : q ≠ []) (hc : cands ≠ []) (hk : ¬ k < 1) :
    find_top_k_similar q cands k "dot" =
      topFrom (scoreCandidates dot_product q cands) true k := by
  simp only [find_top_k_similar]
  rw [if_neg hq, if_neg hc, if_neg hk, if_neg (by decide), if_pos trivial]

lemma find_top_k_euclidean (q : List ℝ) (cands : List (String × List ℝ)) (k : ℤ)
    (hq : q ≠ []) (hc : cands ≠ []) (hk : ¬ k < 1) :
    find_top_k_similar q cands k "euclidean" =
      topFrom (scoreCandidates euclidean_distance q cands) false k := by
  simp only [find_top_k_similar]
  rw [if_neg hq, if_neg hc, if_neg hk, if_neg (by decide), if_neg (by decide), if_pos trivial]

lemma find_eq_topFrom {q : List ℝ} {cands : List (String × List ℝ)} {k : ℤ}
    {fn : String} (hq : q ≠ []) (hc : cands ≠ []) (hk : 1 ≤ k)
    (hfn : knownMetric fn) :
    ∃ f b, scoreFnSpec f ∧
      find_top_k_similar q cands k fn = topFrom (scoreCandidates f q cands) b k ∧
      ((fn = "cosine" ∨ fn = "dot") → b = true) ∧ (fn = "euclidean" → b = false) := by
  have hk' : ¬ k < 1 := not_lt.mpr hk
  rcases hfn with h | h | h <;> subst h
  · exact ⟨cosine_similarity, true, cosine_scoreFnSpec,
      find_top_k_cosine q cands k hq hc hk', fun _ => rfl, fun h => absurd h (by decide)⟩
  · exact ⟨dot_product, true, dot_scoreFnSpec,
      find_top_k_dot q cands k hq hc hk', fun _ => rfl, fun h => absurd h (by decide)⟩
  · exact ⟨euclidean_distance, false, euclidean_scoreFnSpec,
      find_top_k_euclidean q cands k hq hc hk',
      fun h => by rcases h with h | h <;> exact absurd h (by decide), fun _ => rfl⟩

lemma cosine_eval {a b : List ℝ} (ha : a ≠ []) (hb : b ≠ [])
    (hlen : a.length = b.length) :
    cosine_similarity a b =
      if Real.sqrt (sqSum a) = 0 ∨ Real.sqrt (sqSum b) = 0 then Except.ok 0
      else Except.ok (pairMulSum a b / (Real.sqrt (sqSum a) * Real.sqrt (sqSum b))) := by
  simp only [cosine_similarity]
  rw [if_neg (by simp [ha, hb]), if_neg (by simp [hlen])]

lemma euclidean_eval {a b : List ℝ} (ha : a ≠ []) (hb : b ≠ [])
    (hlen : a.length = b.length) :
    euclidean_distance a b = Except.ok (Real.sqrt (sqDiffSum a b)) := by
  simp only [euclidean_distance]
  rw [if_neg (by simp [ha, hb]), if_neg (by simp [hlen])]

lemma dot_eval {a b : List ℝ} (ha : a ≠ []) (hb : b ≠ [])
    (hlen : a.length = b.length) :
    dot_product a b = Except.ok (pairMulSum a b) := by
  simp only [dot_product]
  rw [if_neg (by simp [ha, hb]), if_neg (by simp [hlen])]

lemma find_ok_shape {q : List ℝ} {cands : List (String × List ℝ)} {k : ℤ}
    {fn : String} {res : List (String × ℝ)}
    (h : find_top_k_similar q cands k fn = Except.ok res) :
    ∃ f b,
      ((fn = "cosine" ∧ f = cosine_similarity ∧ b = true) ∨
       (fn = "dot" ∧ f = dot_product ∧ b = true) ∨
       (fn = "euclidean" ∧ f = euclidean_distance ∧ b = false)) ∧
      scoreCandidates f q cands ≠ [] ∧
      res = (sortScores b (scoreCandidates f q cands)).take k.toNat := by
  have topFrom_ok : ∀ {scores : List (String × ℝ)} {b : Bool}
      {res' : List (String × ℝ)}, topFrom scores b k = Except.ok res' →
      scores ≠ [] ∧ res' = (sortScores b scores).take k.toNat := by
    intro scores b res' h'
    simp only [topFrom] at h'
    by_cases h7 : scores = []
    · rw [if_pos h7] at h'
      exact Except.noConfusion h'
    · rw [if_neg h7] at h'
      exact ⟨h7, (Except.ok.inj h').symm⟩
  simp only [find_top_k_similar] at h
  by_cases h1 : q = []
  · rw [if_pos h1] at h
    exact Except.noConfusion h
  rw [if_neg h1] at h
  by_cases h2 : cands = []
  · rw [if_pos h2] at h
    exact Except.noConfusion h
  rw [if_neg h2] at h
  by_cases h3 : k < 1
  · rw [if_pos h3] at h
    exact Except.noConfusion h
  rw [if_neg h3] at h
  by_cases h4 : fn = "cosine"
  · rw [if_pos h4] at h
    exact ⟨cosine_similarity, true, Or.inl ⟨h4, rfl, rfl⟩, topFrom_ok h⟩
  rw [if_neg h4] at h
  by_cases h5 : fn = "dot"
  · rw [if_pos h5] at h
    exact ⟨dot_product, true, Or.inr (Or.inl ⟨h5, rfl, rfl⟩), topFrom_ok h⟩
  rw [if_neg h5] at h
  by_cases h6 : fn = "euclidean"
  · rw [if_pos h6] at h
    exact ⟨euclidean_distance, false, Or.inr (Or.inr ⟨h6, rfl, rfl⟩), topFrom_ok h⟩
  rw [if_neg h6] at h
  exact Except.noConfusion h

/-- Claim C1: for every non-empty query, non-empty candidate list, `k ≥ 1` and
known metric, if at least one candidate is dimension-compatible with the query
then `find_top_k_similar` succeeds and returns a list whose length is exactly
`min k (number of dimension-compatible candidates)` — it never pads the result
and never errors merely because fewer than `k` candidates are scoreable. -/
theorem c1_top_k_cardinality (q : List ℝ) (cands : List (String × List ℝ))
    (k : ℤ) (fn : String) (hq : q ≠ []) (hc : cands ≠ []) (hk : 1 ≤ k)
    (hfn : knownMetric fn) (hcompat : ∃ c ∈ cands, c.2.length = q.length) :
    ∃ res, find_top_k_similar q cands k fn = Except.ok res ∧
      res.length = min k.toNat (compatCount q cands) := by
  obtain ⟨f, b, hf, heq, -, -⟩ := find_eq_topFrom hq hc hk hfn
  have hlen := scoreCandidates_length hf q hq cands
  have hpos := compatCount_pos hcompat
  have hne : scoreCandidates f q cands ≠ [] := by
    intro hnil
    rw [hnil] at hlen
    simp only [List.length_nil] at hlen
    omega
  refine ⟨_, by rw [heq, topFrom_ne_nil b k hne], ?_⟩
  rw [List.length_take, sortScores_length, hlen]

/-- Concrete instance of C1: one compatible candidate, `k = 1`, cosine. -/
theorem c1_top_k_cardinality_witness :
    ∃ res, find_top_k_similar [(1 : ℝ)] [("a", [(1 : ℝ)])] 1 "cosine" =
        Except.ok res ∧
      res.length = min (1 : ℤ).toNat (compatCount [(1 : ℝ)] [("a", [(1 : ℝ)])]) :=
  c1_top_k_cardinality [(1 : ℝ)] [("a", [(1 : ℝ)])] 1 "cosine"
    (by simp) (by simp) (by decide) (Or.inl rfl)
    ⟨("a", [(1 : ℝ)]), by simp, rfl⟩

/-- Claim C4: if the query is non-empty, the candidate list non-empty, `k ≥ 1`
and the metric known, but every candidate's vector has a dimension different
from the query's, `find_top_k_similar` fails with the "no valid candidates"
error rather than returning an empty list. -/
theorem c4_all_mismatched_error (q : List ℝ) (cands : List (String × List ℝ))
    (k : ℤ) (fn : String) (hq : q ≠ []) (hc : cands ≠ []) (hk : 1 ≤ k)
    (hfn : knownMetric fn) (hall : ∀ c ∈ cands, c.2.length ≠ q.length) :
    find_top_k_similar q cands k fn = Except.error VecError.noValidCandidates := by
  obtain ⟨f, b, hf, heq, -, -⟩ := find_eq_topFrom hq hc hk hfn
  have hnil : scoreCandidates f q cands = [] := by
    rw [← List.length_eq_zero, scoreCandidates_length hf q hq]
    simp only [compatCount, List.length_eq_zero, List.filter_eq_nil_iff]
    intro c hc'
    simp [hall c hc']
  rw [heq, hnil, topFrom_nil]

/-- Concrete instance of C4: the only candidate has dimension 2, the query
dimension 1. -/
theorem c4_all_mismatched_error_witness :
    find_top_k_similar [(1 : ℝ)] [("a", [(1 : ℝ), 2])] 1 "cosine" =
      Except.error VecError.noValidCandidates :=
  c4_all_mismatched_error [(1 : ℝ)] [("a", [(1 : ℝ), 2])] 1 "cosine"
    (by simp) (by simp) (by decide) (Or.inl rfl)
    (by intro c hc; simp only [List.mem_singleton] at hc; subst hc; simp)

/-- Claim C2: whenever `find_top_k_similar` succeeds, the returned scores are
ordered in the metric's intrinsic direction — monotonically non-increasing for
"cosine" and "dot", monotonically non-decreasing for "euclidean". -/
theorem c2_top_k_ordering (q : List ℝ) (cands : List (String × List ℝ))
    (k : ℤ) (fn : String) (res : List (String × ℝ))
    (h : find_top_k_similar q cands k fn = Except.ok res) :
    ((fn = "cosine" ∨ fn = "dot") → res.Sorted fun x y => y.2 ≤ x.2) ∧
    (fn = "euclidean" → res.Sorted fun x y => x.2 ≤ y.2) := by
  obtain ⟨f, b, hcase, -, hres⟩ := find_ok_shape h
  constructor
  · intro hfn
    rcases hcase with ⟨hf, -, hb⟩ | ⟨hf, -, hb⟩ | ⟨hf, -, hb⟩
    · subst hb
      rw [hres]
      exact (sortScores_sorted_desc _).sublist (List.take_sublist _ _)
    · subst hb
      rw [hres]
      exact (sortScores_sorted_desc _).sublist (List.take_sublist _ _)
    · rcases hfn with h' | h' <;> rw [hf] at h' <;> exact absurd h' (by decide)
  · intro hfn
    rcases hcase with ⟨hf, -, hb⟩ | ⟨hf, -, hb⟩ | ⟨hf, -, hb⟩
    · rw [hf] at hfn
      exact absurd hfn (by decide)
    · rw [hf] at hfn
      exact absurd hfn (by decide)
    · subst hb
      rw [hres]
      exact (sortScores_sorted_asc _).sublist (List.take_sublist _ _)

/-- Concrete instance of C2: a successful "dot" retrieval with two candidates,
whose returned scores are non-increasing. -/
theorem c2_top_k_ordering_witness :
    ((("dot" : String) = "cosine" ∨ ("dot" : String) = "dot") →
      ([("b", (3 : ℝ)), ("a", (2 : ℝ))]).Sorted fun x y => y.2 ≤ x.2) ∧
    ((("dot" : String) = "euclidean") →
      ([("b", (3 : ℝ)), ("a", (2 : ℝ))]).Sorted fun x y => x.2 ≤ y.2) :=
  c2_top_k_ordering [(1 : ℝ)] [("a", [(2 : ℝ)]), ("b", [(3 : ℝ)])] 2 "dot"
    [("b", (3 : ℝ)), ("a", (2 : ℝ))] (by
      rw [find_top_k_dot _ _ _ (by simp) (by simp) (by decide)]
      have ha : dot_product [(1 : ℝ)] [(2 : ℝ)] = Except.ok 2 := by
        rw [dot_eval (by simp) (by simp) (by simp)]
        norm_num [pairMulSum]
      have hb : dot_product [(1 : ℝ)] [(3 : ℝ)] = Except.ok 3 := by
        rw [dot_eval (by simp) (by simp) (by simp)]
        norm_num [pairMulSum]
      have hsc : scoreCandidates dot_product [(1 : ℝ)]
          [("a", [(2 : ℝ)]), ("b", [(3 : ℝ)])] = [("a", 2), ("b", 3)] := by
        simp [scoreCandidates, List.filterMap_cons, ha, hb]
      rw [hsc, topFrom_ne_nil _ _ (by simp)]
      have hsort : sortScores true [("a", (2 : ℝ)), ("b", (3 : ℝ))] =
          [("b", 3), ("a", 2)] := by
        simp only [sortScores, if_pos]
        rw [List.insertionSort, List.insertionSort, List.insertionSort,
          List.orderedInsert_nil, List.orderedInsert]
        rw [if_neg (by norm_num)]
        rfl
      rw [hsort]
      rfl)

/-- Counterexample to claim C3 as stated: with a duplicated identifier, the
identifier "a" of the dimension-mismatched candidate `("a", [1, 2])` (length 2
while the query has length 1) does appear in the successful result, because a
dimension-compatible candidate carries the same identifier. -/
theorem c3_counterexample :
    ([(1 : ℝ), 2].length ≠ [(1 : ℝ)].length) ∧
    find_top_k_similar [(1 : ℝ)] [("a", [(1 : ℝ), 2]), ("a", [(1 : ℝ)])] 1
      "cosine" = Except.ok [("a", (1 : ℝ))] ∧
    ¬ (∀ p ∈ [("a", (1 : ℝ))], p.1 ≠ "a") := by
  refine ⟨by simp, ?_, by simp⟩
  rw [find_top_k_cosine _ _ _ (by simp) (by simp) (by decide)]
  have hmis : cosine_similarity [(1 : ℝ)] [(1 : ℝ), 2] =
      Except.error VecError.dimMismatch := by
    simp only [cosine_similarity]
    rw [if_neg (by simp), if_pos (by simp)]
  have hok : cosine_similarity [(1 : ℝ)] [(1 : ℝ)] = Except.ok 1 := by
    rw [cosine_eval (by simp) (by simp) (by simp)]
    have hs : sqSum [(1 : ℝ)] = 1 := by
      norm_num [sqSum]
    rw [hs, Real.sqrt_one]
    rw [if_neg (by norm_num)]
    norm_num [pairMulSum]
  have hsc : scoreCandidates cosine_similarity [(1 : ℝ)]
      [("a", [(1 : ℝ), 2]), ("a", [(1 : ℝ)])] = [("a", 1)] := by
    simp [scoreCandidates, List.filterMap_cons, hmis, hok]
  rw [hsc, topFrom_ne_nil _ _ (by simp)]
  have hsort : sortScores true [("a", (1 : ℝ))] = [("a", 1)] := by
    simp [sortScores]
  rw [hsort]
  rfl

/-- Claim C3 (amended): with at least one dimension-mismatched candidate and at
least one dimension-compatible candidate (query non-empty, candidates
non-empty, `k ≥ 1`, known metric), `find_top_k_similar` succeeds, every
returned entry originates from a dimension-compatible candidate bearing that
identifier, and any identifier carried only by mismatched candidates is absent
from the result.  (The original claim — that every mismatched candidate's
identifier is absent — fails when a compatible candidate shares the
identifier, see the counterexample.) -/
theorem c3_amended_mismatch_skipped (q : List ℝ) (cands : List (String × List ℝ))
    (k : ℤ) (fn : String) (hq : q ≠ []) (hc : cands ≠ []) (hk : 1 ≤ k)
    (hfn : knownMetric fn)
    (hmis : ∃ c ∈ cands, c.2.length ≠ q.length)
    (hcompat : ∃ c ∈ cands, c.2.length = q.length) :
    ∃ res, find_top_k_similar q cands k fn = Except.ok res ∧
      (∀ p ∈ res, ∃ c ∈ cands, c.1 = p.1 ∧ c.2.length = q.length) ∧
      (∀ s : String, (∀ c ∈ cands, c.1 = s → c.2.length ≠ q.length) →
        ∀ p ∈ res, p.1 ≠ s) := by
  obtain ⟨f, b, hf, heq, -, -⟩ := find_eq_topFrom hq hc hk hfn
  have hlen := scoreCandidates_length hf q hq cands
  have hpos := compatCount_pos hcompat
  have hne : scoreCandidates f q cands ≠ [] := by
    intro hnil
    rw [hnil] at hlen
    simp only [List.length_nil] at hlen
    omega
  have hmem : ∀ p ∈ (sortScores b (scoreCandidates f q cands)).take k.toNat,
      ∃ c ∈ cands, c.1 = p.1 ∧ c.2.length = q.length := by
    intro p hp
    have hp2 : p ∈ scoreCandidates f q cands :=
      mem_sortScores.mp ((List.take_sublist _ _).mem hp)
    obtain ⟨c, hcmem, hid, hok⟩ := mem_scoreCandidates hp2
    exact ⟨c, hcmem, hid, ((score_ok_length hf hok).2.2).symm⟩
  refine ⟨_, by rw [heq, topFrom_ne_nil b k hne], hmem, ?_⟩
  intro s hs p hp hps
  obtain ⟨c, hcmem, hid, hclen⟩ := hmem p hp
  exact hs c hcmem (by rw [hid, hps]) hclen

/-- Concrete instance of the amended C3: one mismatched and one compatible
candidate with distinct identifiers. -/
theorem c3_amended_mismatch_skipped_witness :
    ∃ res, find_top_k_similar [(1 : ℝ)] [("a", [(1 : ℝ), 2]), ("b", [(1 : ℝ)])]
        1 "cosine" = Except.ok res ∧
      (∀ p ∈ res, ∃ c ∈ [("a", [(1 : ℝ), 2]), ("b", [(1 : ℝ)])],
        c.1 = p.1 ∧ c.2.length = [(1 : ℝ)].length) ∧
      (∀ s : String,
        (∀ c ∈ [("a", [(1 : ℝ), 2]), ("b", [(1 : ℝ)])], c.1 = s →
          c.2.length ≠ [(1 : ℝ)].length) →
        ∀ p ∈ res, p.1 ≠ s) :=
  c3_amended_mismatch_skipped [(1 : ℝ)] [("a", [(1 : ℝ), 2]), ("b", [(1 : ℝ)])]
    1 "cosine" (by simp) (by simp) (by decide) (Or.inl rfl)
    ⟨("a", [(1 : ℝ), 2]), by simp, by simp⟩
    ⟨("b", [(1 : ℝ)]), by simp, rfl⟩

/-- Claim C5: `find_top_k_similar` fails with a validation error exactly when
the query is empty, the candidate collection is empty, `k < 1`, or the metric
is unknown; each such failure names the violated constraint (checked in that
order), and on valid inputs none of these validation errors is returned (the
only error still possible is "no valid candidates"). -/
theorem c5_validation_errors (q : List ℝ) (cands : List (String × List ℝ))
    (k : ℤ) (fn : String) :
    (q = [] → find_top_k_similar q cands k fn = Except.error VecError.emptyQuery) ∧
    (q ≠ [] → cands = [] →
      find_top_k_similar q cands k fn = Except.error VecError.emptyCandidates) ∧
    (q ≠ [] → cands ≠ [] → k < 1 →
      find_top_k_similar q cands k fn = Except.error VecError.kTooSmall) ∧
    (q ≠ [] → cands ≠ [] → 1 ≤ k → ¬ knownMetric fn →
      find_top_k_similar q cands k fn = Except.error VecError.unknownMetric) ∧
    (∀ e, find_top_k_similar q cands k fn = Except.error e →
      (e = VecError.emptyQuery ∨ e = VecError.emptyCandidates ∨
        e = VecError.kTooSmall ∨ e = VecError.unknownMetric) →
      (q = [] ∨ cands = [] ∨ k < 1 ∨ ¬ knownMetric fn)) := by
  refine ⟨?_, ?_, ?_, ?_, ?_⟩
  · intro h1
    simp only [find_top_k_similar]
    rw [if_pos h1]
  · intro h1 h2
    simp only [find_top_k_similar]
    rw [if_neg h1, if_pos h2]
  · intro h1 h2 h3
    simp only [find_top_k_similar]
    rw [if_neg h1, if_neg h2, if_pos h3]
  · intro h1 h2 h3 h4
    simp only [knownMetric, not_or] at h4
    simp only [find_top_k_similar]
    rw [if_neg h1, if_neg h2, if_neg (not_lt.mpr h3), if_neg h4.1, if_neg h4.2.1,
      if_neg h4.2.2]
  · intro e he hval
    by_cases h1 : q = []
    · exact Or.inl h1
    by_cases h2 : cands = []
    · exact Or.inr (Or.inl h2)
    by_cases h3 : k < 1
    · exact Or.inr (Or.inr (Or.inl h3))
    by_cases h4 : knownMetric fn
    · exfalso
      obtain ⟨f, b, -, heq, -, -⟩ := find_eq_topFrom h1 h2 (not_lt.mp h3) h4
      rw [heq] at he
      simp only [topFrom] at he
      by_cases h5 : scoreCandidates f q cands = []
      · rw [if_pos h5] at he
        have he' : e = VecError.noValidCandidates := (Except.error.inj he).symm
        subst he'
        rcases hval with h | h | h | h <;> exact VecError.noConfusion h
      · rw [if_neg h5] at he
        exact Except.noConfusion he
    · exact Or.inr (Or.inr (Or.inr h4))

/-- Concrete instance of C5: an empty query yields the "empty query" error. -/
theorem c5_validation_errors_witness :
    find_top_k_similar ([] : List ℝ) [("a", [(1 : ℝ)])] 1 "cosine" =
      Except.error VecError.emptyQuery :=
  (c5_validation_errors ([] : List ℝ) [("a", [(1 : ℝ)])] 1 "cosine").1 rfl

/-- Claim C6: the zero-magnitude policies deliberately differ.  For equal-length
non-empty vectors where at least one has zero magnitude, `cosine_similarity`
returns `0.0` without error, whereas `normalize_vector` on a non-empty vector of
zero magnitude fails with the "zero vector" error, which is distinct from the
"empty vector" error raised on empty input. -/
theorem c6_zero_magnitude_policies (v w u : List ℝ)
    (hv : v ≠ []) (hw : w ≠ []) (hlen : v.length = w.length)
    (hzero : Real.sqrt (sqSum v) = 0 ∨ Real.sqrt (sqSum w) = 0)
    (hu : u ≠ []) (hu0 : Real.sqrt (sqSum u) = 0) :
    cosine_similarity v w = Except.ok 0 ∧
    normalize_vector u = Except.error VecError.zeroVector ∧
    normalize_vector [] = Except.error VecError.emptyVector ∧
    VecError.zeroVector ≠ VecError.emptyVector := by
  refine ⟨?_, ?_, ?_, by decide⟩
  · rw [cosine_eval hv hw hlen, if_pos hzero]
  · simp only [normalize_vector]
    rw [if_neg hu, if_pos hu0]
  · simp only [normalize_vector]
    rw [if_pos trivial]

/-- Concrete instance of C6 with the one-dimensional zero vector. -/
theorem c6_zero_magnitude_policies_witness :
    cosine_similarity [(0 : ℝ)] [(0 : ℝ)] = Except.ok 0 ∧
    normalize_vector [(0 : ℝ)] = Except.error VecError.zeroVector ∧
    normalize_vector [] = Except.error VecError.emptyVector ∧
    VecError.zeroVector ≠ VecError.emptyVector :=
  c6_zero_magnitude_policies [(0 : ℝ)] [(0 : ℝ)] [(0 : ℝ)]
    (by simp) (by simp) rfl
    (Or.inl (by norm_num [sqSum]))
    (by simp) (by norm_num [sqSum])

/-- Claim C7: on valid inputs (non-empty, equal-length vectors), each of
`cosine_similarity`, `euclidean_distance` and `dot_product` is symmetric in its
two arguments. -/
theorem c7_primitive_symmetry (a b : List ℝ) (ha : a ≠ []) (hb : b ≠ [])
    (hlen : a.length = b.length) :
    cosine_similarity a b = cosine_similarity b a ∧
    euclidean_distance a b = euclidean_distance b a ∧
    dot_product a b = dot_product b a := by
  refine ⟨?_, ?_, ?_⟩
  · rw [cosine_eval ha hb hlen, cosine_eval hb ha hlen.symm,
      pairMulSum_comm b a, mul_comm (Real.sqrt (sqSum b)) (Real.sqrt (sqSum a))]
    by_cases hz : Real.sqrt (sqSum a) = 0 ∨ Real.sqrt (sqSum b) = 0
    · rw [if_pos hz, if_pos hz.symm]
    · rw [if_neg hz, if_neg fun h => hz h.symm]
  · rw [euclidean_eval ha hb hlen, euclidean_eval hb ha hlen.symm,
      sqDiffSum_comm b a]
  · rw [dot_eval ha hb hlen, dot_eval hb ha hlen.symm, pairMulSum_comm b a]

/-- Concrete instance of C7 at `a = [1]`, `b = [2]`. -/
theorem c7_primitive_symmetry_witness :
    cosine_similarity [(1 : ℝ)] [(2 : ℝ)] = cosine_similarity [(2 : ℝ)] [(1 : ℝ)] ∧
    euclidean_distance [(1 : ℝ)] [(2 : ℝ)] = euclidean_distance [(2 : ℝ)] [(1 : ℝ)] ∧
    dot_product [(1 : ℝ)] [(2 : ℝ)] = dot_product [(2 : ℝ)] [(1 : ℝ)] :=
  c7_primitive_symmetry [(1 : ℝ)] [(2 : ℝ)] (by simp) (by simp) (by simp)

/-- Claim C8: on valid inputs, `euclidean_distance` succeeds with a value `d`
that is always non-negative and is zero exactly when the two vectors are
element-wise identical. -/
theorem c8_euclidean_zero_iff (a b : List ℝ) (ha : a ≠ []) (hb : b ≠ [])
    (hlen : a.length = b.length) :
    ∃ d, euclidean_distance a b = Except.ok d ∧ 0 ≤ d ∧ (d = 0 ↔ a = b) := by
  refine ⟨_, euclidean_eval ha hb hlen, Real.sqrt_nonneg _, ?_⟩
  rw [Real.sqrt_eq_zero (sqDiffSum_nonneg a b), sqDiffSum_eq_zero_iff hlen]

/-- Concrete instance of C8 at `a = b = [1]`. -/
theorem c8_euclidean_zero_iff_witness :
    ∃ d, euclidean_distance [(1 : ℝ)] [(1 : ℝ)] = Except.ok d ∧ 0 ≤ d ∧
      (d = 0 ↔ [(1 : ℝ)] = [(1 : ℝ)]) :=
  c8_euclidean_zero_iff [(1 : ℝ)] [(1 : ℝ)] (by simp) (by simp) rfl

/-- Claim C9: `mean_vector` fails with the "empty collection" error exactly on
the empty list, fails with the "dimension mismatch" error exactly when some
vector's length differs from the first vector's length, and otherwise returns
the vector of the first vector's dimension whose i-th component is the sum of
the i-th components of all input vectors divided by the number of vectors. -/
theorem c9_mean_vector_spec (vectors : List (List ℝ)) :
    (vectors = [] → mean_vector vectors = Except.error VecError.emptyVectorsList) ∧
    (∀ v0 rest, vectors = v0 :: rest →
      ((∃ v ∈ vectors, v.length ≠ v0.length) →
        mean_vector vectors = Except.error VecError.meanDimMismatch) ∧
      ((∀ v ∈ vectors, v.length = v0.length) →
        ∃ m, mean_vector vectors = Except.ok m ∧ m.length = v0.length ∧
          ∀ i, i < v0.length →
            m.getD i 0 =
              (vectors.map fun v => v.getD i 0).sum / (vectors.length : ℝ))) := by
  constructor
  · intro h
    subst h
    rfl
  · intro v0 rest h
    subst h
    constructor
    · rintro ⟨v, hv, hne⟩
      simp only [mean_vector]
      rw [if_neg fun hall => hne (hall v hv)]
    · intro hall
      refine ⟨_, by simp only [mean_vector]; rw [if_pos hall], by simp, ?_⟩
      intro i hi
      rw [List.getD_eq_getElem _ _ (by simpa using hi)]
      simp [List.getElem_map, List.getElem_range]

/-- Concrete instance of C9: the mean of `[[1], [3]]` is well-defined and has
the components promised by the claim. -/
theorem c9_mean_vector_spec_witness :
    ∃ m, mean_vector [[(1 : ℝ)], [(3 : ℝ)]] = Except.ok m ∧
      m.length = [(1 : ℝ)].length ∧
      ∀ i, i < [(1 : ℝ)].length →
        m.getD i 0 = ([[(1 : ℝ)], [(3 : ℝ)]].map fun v => v.getD i 0).sum /
          (([[(1 : ℝ)], [(3 : ℝ)]].length : ℝ)) :=
  ((c9_mean_vector_spec [[(1 : ℝ)], [(3 : ℝ)]]).2 [(1 : ℝ)] [[(3 : ℝ)]] rfl).2
    (by simp)

/-- Claim C10 (implicit edge case): `mean_vector` accepts empty vectors — on a
non-empty list whose vectors are all empty it returns the empty vector without
error — even though every pairwise primitive (`cosine_similarity`,
`euclidean_distance`, `dot_product`, `normalize_vector`, `vector_magnitude`)
rejects empty vectors with an error. -/
theorem c10_mean_vector_accepts_empty (l : List (List ℝ)) (hne : l ≠ [])
    (hall : ∀ v ∈ l, v = []) :
    mean_vector l = Except.ok [] ∧
    cosine_similarity [] [] = Except.error VecError.emptyVectors ∧
    euclidean_distance [] [] = Except.error VecError.emptyVectors ∧
    dot_product [] [] = Except.error VecError.emptyVectors ∧
    normalize_vector [] = Except.error VecError.emptyVector ∧
    vector_magnitude [] = Except.error VecError.emptyVector := by
  refine ⟨?_, ?_, ?_, ?_, ?_, ?_⟩
  · cases l with
    | nil => exact absurd rfl hne
    | cons v0 rest =>
      have h0 : v0 = [] := hall v0 (by simp)
      subst h0
      simp only [mean_vector]
      rw [if_pos ?_]
      · simp
      · intro v hv
        rw [hall v hv]
  · simp only [cosine_similarity]
    rw [if_pos (Or.inl trivial)]
  · simp only [euclidean_distance]
    rw [if_pos (Or.inl trivial)]
  · simp only [dot_product]
    rw [if_pos (Or.inl trivial)]
  · simp only [normalize_vector]
    rw [if_pos trivial]
  · simp only [vector_magnitude]
    rw [if_pos trivial]

/-- Concrete instance of C10 at `l = [[], []]`. -/
theorem c10_mean_vector_accepts_empty_witness :
    mean_vector [([] : List ℝ), []] = Except.ok [] ∧
    cosine_similarity [] [] = Except.error VecError.emptyVectors ∧
    euclidean_distance [] [] = Except.error VecError.emptyVectors ∧
    dot_product [] [] = Except.error VecError.emptyVectors ∧
    normalize_vector [] = Except.error VecError.emptyVector ∧
    vector_magnitude [] = Except.error VecError.emptyVector :=
  c10_mean_vector_accepts_empty [([] : List ℝ), []] (by simp) (by simp)

end VectorUtils
